import Mathlib

/-!
Verification of the navigation core in
`baselines/rl/ppo/ppo_trainer_sem_map_shortest_pp_map.py`
(class `ShortestPathPlannerMapTrainer`).

Each Python fragment relevant to a spec claim is embedded as a Lean
definition; machine reals (Python floats) are modelled as `ℚ` (every
Python float is a dyadic rational, and the operations involved here --
comparison, doubling, max/min, truncation -- are exact on them), tensors
of cells as functions or lists, and Python runtime errors as an explicit
error type.  External capabilities (the FMM distance-field solver, the
skimage dilation, the math library) are passed in as function parameters,
mirroring the spec treatment of the solver as an injected capability.
-/

set_option linter.unusedVariables false

namespace MopaObjnav

/-- Discrete action ids of `HabitatSimActions` (habitat simulator). -/
def STOP : ℕ := 0

/-- Action id of move-forward. -/
def MOVE_FORWARD : ℕ := 1

/-- Action id of turn-left. -/
def TURN_LEFT : ℕ := 2

/-- Action id of turn-right. -/
def TURN_RIGHT : ℕ := 3

/-!
Section: GridMapFuser: `_add_to_map` (source lines 1792-1808)

Per cell, the update receives the accumulated high-band point count
`cnt` (`depth_counts[:, :, :, 1]`, a nonnegative bin count produced by
the external `du.bin_points_w_sem`) and the incoming semantic id `inc`
(`sem_map_counts[:, :, :, 1]`).  The occupancy channel becomes
`1` exactly when `old + cnt ≥ 1` (`map[map < 1] = 0; map[map >= 1] = 1`),
and the semantic channel takes `np.maximum(old, inc)`.
-/

/-- One `_add_to_map` update of a single cell `(occupancy, semantic)`. -/
def add_to_map (occ sem cnt inc : ℕ) : ℕ × ℕ :=
  (if 1 ≤ occ + cnt then 1 else 0, max sem inc)

/-- A sequence of `_add_to_map` updates applied to one cell; each list
entry is the pair (high-band count, incoming semantic id) of one step. -/
def run_fuser (s : ℕ × ℕ) (us : List (ℕ × ℕ)) : ℕ × ℕ :=
  us.foldl (fun t u => add_to_map t.1 t.2 u.1 u.2) s

/-- Auxiliary step facts for one fuser update. -/
lemma add_to_map_step (occ sem cnt inc : ℕ) (h : occ ≤ 1) :
    occ ≤ (add_to_map occ sem cnt inc).1 ∧
    (add_to_map occ sem cnt inc).1 ≤ 1 ∧
    sem ≤ (add_to_map occ sem cnt inc).2 := by
  unfold add_to_map
  refine ⟨?_, ?_, le_max_left _ _⟩ <;> split <;> omega

/-- Claim C1: over any sequence of GridMapFuser updates, a cell's
occupancy stays in `{0,1}` and is monotone non-decreasing (once `1`,
it stays `1` regardless of subsequent observations), and the semantic
channel never decreases; a single update stores exactly the maximum of
the previous and incoming semantic ids. -/
theorem fuser_monotone (s : ℕ × ℕ) (us : List (ℕ × ℕ)) (h : s.1 ≤ 1) :
    s.1 ≤ (run_fuser s us).1 ∧ (run_fuser s us).1 ≤ 1 ∧
    (s.1 = 1 → (run_fuser s us).1 = 1) ∧
    s.2 ≤ (run_fuser s us).2 ∧
    (∀ occ sem cnt inc : ℕ, (add_to_map occ sem cnt inc).2 = max sem inc) := by
  induction us generalizing s with
  | nil =>
      refine ⟨le_refl _, h, fun h1 => h1, le_refl _, fun _ _ _ _ => rfl⟩
  | cons u us ih =>
      obtain ⟨h1, h2, h3⟩ := add_to_map_step s.1 s.2 u.1 u.2 h
      have hrun : run_fuser s (u :: us) =
          run_fuser (add_to_map s.1 s.2 u.1 u.2) us := rfl
      obtain ⟨i1, i2, i3, i4, i5⟩ := ih (add_to_map s.1 s.2 u.1 u.2) h2
      rw [hrun]
      refine ⟨le_trans h1 i1, i2, ?_, le_trans h3 i4, i5⟩
      intro hs1
      exact i3 (by omega)

/-- Witness for Claim C1 at a concrete cell and update sequence. -/
theorem fuser_monotone_witness :
    (0, 3).1 ≤ 1 ∧
    ((0, 3).1 ≤ (run_fuser (0, 3) [(2, 1), (0, 7)]).1 ∧
     (run_fuser (0, 3) [(2, 1), (0, 7)]).1 ≤ 1 ∧
     ((0, 3).1 = 1 → (run_fuser (0, 3) [(2, 1), (0, 7)]).1 = 1) ∧
     (0, 3).2 ≤ (run_fuser (0, 3) [(2, 1), (0, 7)]).2 ∧
     (∀ occ sem cnt inc : ℕ, (add_to_map occ sem cnt inc).2 = max sem inc)) :=
  ⟨by decide, fuser_monotone (0, 3) [(2, 1), (0, 7)] (by decide)⟩

/-!
Section: Grid/world coordinate transforms (source lines 1810-1819)

`to_grid`: `(np.round(xy / map_resolution) + map_center).astype(int)`;
`np.round` rounds half to even.  `from_grid`:
`(grid - map_center) * map_resolution`, per coordinate.
-/

/-- Round half to even (`np.round`) on rationals. -/
def rne (q : ℚ) : ℤ :=
  if q - ⌊q⌋ < 1/2 then ⌊q⌋
  else if 1/2 < q - ⌊q⌋ then ⌊q⌋ + 1
  else if Even ⌊q⌋ then ⌊q⌋ else ⌊q⌋ + 1

/-- World coordinate to grid index, one coordinate
(`round(x / r) + c` with resolution `r` and map-center coordinate `c`). -/
def to_grid (r : ℚ) (c : ℤ) (x : ℚ) : ℤ := rne (x / r) + c

/-- Grid index back to world coordinate (`(g - c) * r`). -/
def from_grid (r : ℚ) (c : ℤ) (g : ℤ) : ℚ := ((g - c : ℤ) : ℚ) * r

/-- Rounding half to even moves a value by at most `1/2`. -/
lemma rne_dist (q : ℚ) : |(rne q : ℚ) - q| ≤ 1/2 := by
  have h0 : ((⌊q⌋ : ℤ) : ℚ) ≤ q := Int.floor_le q
  have h1 : q < ((⌊q⌋ : ℤ) : ℚ) + 1 := Int.lt_floor_add_one q
  unfold rne
  split_ifs with hlt hgt hev <;>
    (rw [abs_le]; push_cast; constructor <;> linarith)

/-- Round trip error bound for one coordinate. -/
lemma round_trip_coord (r : ℚ) (c : ℤ) (x : ℚ) (hr : 0 < r) :
    |from_grid r c (to_grid r c x) - x| ≤ r := by
  have h := rne_dist (x / r)
  have hx : from_grid r c (to_grid r c x) - x = ((rne (x / r) : ℚ) - x / r) * r := by
    unfold from_grid to_grid
    have hxr : x / r * r = x := div_mul_cancel₀ x (ne_of_gt hr)
    push_cast
    nlinarith [hxr]
  rw [hx, abs_mul, abs_of_pos hr]
  have h2 : |(rne (x / r) : ℚ) - x / r| * r ≤ (1/2) * r :=
    mul_le_mul_of_nonneg_right h (le_of_lt hr)
  linarith

/-- Claim C7: for any world point within the configured map extent,
`from_grid (to_grid p)` differs from `p` by at most one resolution
unit `r` in each coordinate. -/
theorem grid_round_trip (r : ℚ) (c : ℤ × ℤ) (p : ℚ × ℚ) (E : ℚ)
    (hr : 0 < r) (h1 : |p.1| ≤ E) (h2 : |p.2| ≤ E) :
    |from_grid r c.1 (to_grid r c.1 p.1) - p.1| ≤ r ∧
    |from_grid r c.2 (to_grid r c.2 p.2) - p.2| ≤ r :=
  ⟨round_trip_coord r c.1 p.1 hr, round_trip_coord r c.2 p.2 hr⟩

/-- Witness for Claim C7 at resolution `1/2`, center `(0,0)`,
point `(1/3, -1/4)`, extent `1`. -/
theorem grid_round_trip_witness :
    (0 : ℚ) < 1/2 ∧ |(1/3 : ℚ)| ≤ 1 ∧ |(-1/4 : ℚ)| ≤ 1 ∧
    (|from_grid (1/2) 0 (to_grid (1/2) 0 (1/3)) - 1/3| ≤ 1/2 ∧
     |from_grid (1/2) 0 (to_grid (1/2) 0 (-1/4)) - (-1/4)| ≤ 1/2) :=
  ⟨by norm_num, by rw [abs_le]; norm_num, by rw [abs_le]; norm_num,
   grid_round_trip (1/2) (0, 0) (1/3, -1/4) 1 (by norm_num)
     (by rw [abs_le]; norm_num) (by rw [abs_le]; norm_num)⟩

/-!
Section: Python runtime errors raised by the planning path

The class assigns (in `_eval_checkpoint`, lines 1141-1234) the attributes
`camera`, `elevation`, `camera_height`, `map_resolution`, `meters_covered`,
`map_grid_size`, `map_center`, `grid_map`, `slice_range_below`,
`slice_range_above`, `z_bins`, `selem`, `selem_small`,
`recover_on_collision`, `fix_thrashing`, `recovery_actions`, `acts`,
`thrashing_actions`, `object_maps`, `collision_map`, `visited`,
`num_goals_completed`, `relative_angles`, `stg`, `prev_locs`,
`unstuck_actions`, `unstuck_mode`, `stuck_steps`, `stuck_max_steps`,
`gt_maps` and inherits from habitat's `BaseRLTrainer`.  Neither the class
nor the base defines `collison_map`, `args`, or `dt`, and no module alias
`pu` is imported; the names `goal_loc` (line 1904), `gt_action`
(line 1975) and `start_o` (line 1460) are unbound at their use sites.
-/

/-- Python runtime errors that the planning methods raise. -/
inductive PyErr where
  | attributeError : PyErr
  | nameErrorPu : PyErr
  | nameErrorGoalLoc : PyErr
  | nameErrorGtAction : PyErr
deriving DecidableEq

/-!
Section: Distance comparison

`get_l2_distance` (source lines 1821-1825) returns
`((x1-x2)**2 + (y1-y2)**2) ** 0.5`; the code only compares it against a
positive constant, and for nonnegative radicands `sqrt s < c ↔ s < c²`,
which `l2_lt` computes exactly on rationals.
-/

/-- The source's `get_l2_distance` as a real number (documentation-level
definition; the executable comparisons below go through `l2_lt`). -/
noncomputable def get_l2_distance (x1 x2 y1 y2 : ℚ) : ℝ :=
  Real.sqrt (((x1 - x2) ^ 2 + (y1 - y2) ^ 2 : ℚ))

/-- Decidable form of `get_l2_distance x1 x2 y1 y2 < c`. -/
def l2_lt (x1 x2 y1 y2 c : ℚ) : Bool :=
  decide ((x1 - x2) ^ 2 + (y1 - y2) ^ 2 < c ^ 2)

/-- The squared comparison agrees with the source's square-root one. -/
lemma l2_lt_iff (x1 x2 y1 y2 c : ℚ) (hc : 0 < c) :
    get_l2_distance x1 x2 y1 y2 < (c : ℝ) ↔ l2_lt x1 x2 y1 y2 c = true := by
  unfold get_l2_distance l2_lt
  rw [decide_eq_true_iff, Real.sqrt_lt' (by exact_mod_cast hc)]
  constructor
  · intro h; exact_mod_cast h
  · intro h; exact_mod_cast h

/-!
Section: `_get_stg` (source lines 1827-1899)

After the pure window bounds of lines 1831-1834, line 1835 evaluates
`pu.get_l2_distance(...)`, but no module alias `pu` is ever imported in
this file, so every invocation raises `NameError: name 'pu' is not
defined` before the traversability mask, the solver, or the
`replan → start` fallback of lines 1894-1895 is reached.  (Even past that
line, `self.collison_map` (1865), `self.dt` (1887) and `self.args` (1892)
are attributes the class never assigns.)
-/

/-- The `_get_stg` windowed replanning step.  `grid_h × grid_w` is the
obstacle-grid shape, `explored` the visited map, then start cell, goal
cell and planning window as in the source. -/
def get_stg (grid_h grid_w : ℕ) (explored : List (List ℕ))
    (start goal : ℤ × ℤ) (planning_window : ℤ × ℤ × ℤ × ℤ) :
    Except PyErr (ℚ × ℚ) :=
  let x1 := min start.1 goal.1
  let x2 := max start.1 goal.1
  let y1 := min start.2 goal.2
  let y2 := max start.2 goal.2
  Except.error PyErr.nameErrorPu

/-- Claim C2 (code bug): the replanning step does not complete without
raising — `_get_stg` raises `NameError` (unimported `pu`) on every call,
e.g. on a 100×100 grid with start `(5,5)`, goal `(40,40)`, full planning
window; the hold-position fallback of lines 1894-1895 is unreachable. -/
theorem get_stg_raises :
    get_stg 100 100 [] (5, 5) (40, 40) (0, 99, 0, 99) =
      Except.error PyErr.nameErrorPu := rfl

/-!
Section: `_get_gt_action` (source lines 1901-1975)

Line 1903 compares `get_l2_distance(start, goal)` with 3; if below, line
1904 executes `return HabitatSimActions.STOP, 0.0, goal_loc` where
`goal_loc` is not defined in the function (NameError).  Otherwise line
1912 evaluates `pu.get_l2_distance(...)` with `pu` unimported
(NameError).  Even if execution reached the end, line 1975 is
`return gt_action`, and only `best_action` was assigned (the `gt_action`
assignments at lines 1962-1967 are commented out).
-/

/-- The `_get_gt_action` action selection step. -/
def get_gt_action (grid_h grid_w : ℕ) (start goal : ℤ × ℤ)
    (planning_window : ℤ × ℤ × ℤ × ℤ) (start_o : ℚ) : Except PyErr ℕ :=
  if l2_lt (start.1 : ℚ) (goal.1 : ℚ) (start.2 : ℚ) (goal.2 : ℚ) 3 then
    Except.error PyErr.nameErrorGoalLoc
  else
    Except.error PyErr.nameErrorPu

/-- Claim C3 (code bug): the action selector never returns an action —
within 3 cells of the goal it raises `NameError` on the undefined
`goal_loc` (line 1904), and otherwise it raises `NameError` on the
unimported `pu` (line 1912) before the bearing logic runs. -/
theorem get_gt_action_raises :
    get_gt_action 300 300 (0, 0) (1, 1) (0, 299, 0, 299) 0 =
        Except.error PyErr.nameErrorGoalLoc ∧
    get_gt_action 300 300 (0, 0) (3, 4) (0, 299, 0, 299) 0 =
        Except.error PyErr.nameErrorPu := by
  constructor <;> norm_num [get_gt_action, l2_lt]

/-!
Section: The intended bearing-to-action logic (source lines 1952-1973)

This code is unreachable because of the errors above, but it is the
selector the spec describes: heading normalized by `% 360` then shifted
into `(-180, 180]`, relative angle likewise, thresholds at ±10 degrees.
The lemmas below record that the two-stage normalization of the source
equals a single normalization of the heading/bearing difference into
`(-180, 180]`, matching the spec's description.
-/

/-- Python float modulo with positive modulus (`x % m ≥ 0`). -/
def pymod (x m : ℚ) : ℚ := x - m * ⌊x / m⌋

/-- Source lines 1954-1956: `angle_agent = start_o % 360`, shifted below
180. -/
def norm_heading (start_o : ℚ) : ℚ :=
  if 180 < pymod start_o 360 then pymod start_o 360 - 360
  else pymod start_o 360

/-- Source lines 1958-1960: relative angle of heading and bearing. -/
def relative_angle (start_o angle_st_goal : ℚ) : ℚ :=
  if 180 < pymod (norm_heading start_o - angle_st_goal) 360 then
    pymod (norm_heading start_o - angle_st_goal) 360 - 360
  else pymod (norm_heading start_o - angle_st_goal) 360

/-- Source lines 1968-1973: thresholded action choice (assigned to
`best_action`, which line 1975 then fails to return). -/
def best_action (ra : ℚ) : ℕ :=
  if 10 < ra then TURN_RIGHT else if ra < -10 then TURN_LEFT
  else MOVE_FORWARD

/-- Signed angular difference normalized to `(-180, 180]`, as the spec
states it. -/
def normalize_angle (d : ℚ) : ℚ :=
  if 180 < pymod d 360 then pymod d 360 - 360 else pymod d 360

/-- Subtracting an integer multiple of the modulus does not change
`pymod`. -/
lemma pymod_sub_int_mul (x : ℚ) (k : ℤ) :
    pymod (x - 360 * k) 360 = pymod x 360 := by
  unfold pymod
  have h1 : (x - 360 * k) / 360 = x / 360 - k := by ring
  rw [h1, Int.floor_sub_int]
  push_cast
  ring

/-- The source's two-stage normalization equals one normalization of the
heading-minus-bearing difference; so the selector acts on the signed
angular difference in `(-180, 180]` exactly as the spec describes. -/
lemma relative_angle_eq_normalize (h b : ℚ) :
    relative_angle h b = normalize_angle (h - b) := by
  have key : pymod (norm_heading h - b) 360 = pymod (h - b) 360 := by
    unfold norm_heading
    by_cases hc : 180 < pymod h 360
    · rw [if_pos hc]
      have e : pymod h 360 - 360 - b = h - b - 360 * ((⌊h / 360⌋ + 1 : ℤ) : ℚ) := by
        unfold pymod; push_cast; ring
      rw [e, pymod_sub_int_mul]
    · rw [if_neg hc]
      have e : pymod h 360 - b = h - b - 360 * ((⌊h / 360⌋ : ℤ) : ℚ) := by
        unfold pymod; ring
      rw [e, pymod_sub_int_mul]
  unfold relative_angle normalize_angle
  rw [key]

/-- `pymod` with modulus 360 lies in `[0, 360)`. -/
lemma pymod_bounds (x : ℚ) : 0 ≤ pymod x 360 ∧ pymod x 360 < 360 := by
  unfold pymod
  have h0 : ((⌊x / 360⌋ : ℤ) : ℚ) ≤ x / 360 := Int.floor_le _
  have h1 : x / 360 < ((⌊x / 360⌋ : ℤ) : ℚ) + 1 := Int.lt_floor_add_one _
  constructor <;> nlinarith

/-- The normalized angular difference lies in `(-180, 180]`. -/
lemma normalize_angle_mem (d : ℚ) :
    -180 < normalize_angle d ∧ normalize_angle d ≤ 180 := by
  unfold normalize_angle
  obtain ⟨h0, h1⟩ := pymod_bounds d
  split_ifs with hc
  · constructor <;> linarith
  · constructor <;> linarith

/-!
Section: The replanning escalation loop (source lines 1919-1951)

The `while not path_found` loop of `_get_gt_action`: each iteration
rebuilds the traversability mask and queries the FMM planner (modelled as
the injected function `plan`, per the spec's solver contract); on
`replan`, while `buf < 100` the buffer doubles and the window is
re-expanded (`int(...)` is Python float truncation toward zero), else
while `goal_r < 50` the goal-clearance radius grows by one, else
`path_found` is set.  After the loop the window-local waypoint is
translated by `(x1, y1)` (line 1951).
-/

/-- Python `int()` on a float: truncation toward zero. -/
def pytrunc (q : ℚ) : ℤ := if 0 ≤ q then ⌊q⌋ else -⌊-q⌋

/-- Mutable state of the escalation loop: the window buffer `buf`, the
goal-clearance radius `goal_r`, and the window bounds. -/
structure GtLoopSt where
  buf : ℚ
  goalR : ℕ
  x1 : ℤ
  x2 : ℤ
  y1 : ℤ
  y2 : ℤ

/-- One iteration of the `while not path_found` loop.  `plan` is the
external solver call (`FMMPlanner.get_short_term_goal` on the mask built
from the current state); it returns the window-local waypoint and the
`replan` flag.  `Sum.inl` is loop exit with the translated waypoint,
`Sum.inr` the next state. -/
def gt_loop_step (W H : ℤ) (plan : GtLoopSt → ℚ × ℚ × Bool)
    (s : GtLoopSt) : (ℚ × ℚ) ⊕ GtLoopSt :=
  if (plan s).2.2 && decide (s.buf < 100) then
    Sum.inr { buf := 2 * s.buf, goalR := s.goalR,
              x1 := max 0 (pytrunc ((s.x1 : ℚ) - 2 * s.buf)),
              x2 := min W (pytrunc ((s.x2 : ℚ) + 2 * s.buf)),
              y1 := max 0 (pytrunc ((s.y1 : ℚ) - 2 * s.buf)),
              y2 := min H (pytrunc ((s.y2 : ℚ) + 2 * s.buf)) }
  else if (plan s).2.2 && decide (s.goalR < 50) then
    Sum.inr { s with goalR := s.goalR + 1 }
  else
    Sum.inl ((plan s).1 + (s.x1 : ℚ), (plan s).2.1 + (s.y1 : ℚ))

/-- The escalation loop with an iteration budget (fuel); `none` means the
budget was exhausted before `path_found`. -/
def gt_loop_run (W H : ℤ) (plan : GtLoopSt → ℚ × ℚ × Bool) :
    ℕ → GtLoopSt → Option (ℚ × ℚ)
  | 0, _ => none
  | n + 1, s =>
    match gt_loop_step W H plan s with
    | Sum.inl w => some w
    | Sum.inr t => gt_loop_run W H plan n t

/-- Case analysis of one loop iteration: either the loop exits, or the
buffer doubles (only possible while `buf < 100`), or the goal radius
grows by one (only possible while `goal_r < 50`). -/
lemma gt_loop_step_cases (W H : ℤ) (plan : GtLoopSt → ℚ × ℚ × Bool)
    (s : GtLoopSt) :
    (∃ w, gt_loop_step W H plan s = Sum.inl w) ∨
    (∃ t, gt_loop_step W H plan s = Sum.inr t ∧
      ((s.buf < 100 ∧ t.buf = 2 * s.buf ∧ t.goalR = s.goalR) ∨
       (100 ≤ s.buf ∧ s.goalR < 50 ∧ t.buf = s.buf ∧ t.goalR = s.goalR + 1))) := by
  unfold gt_loop_step
  split_ifs with h1 h2
  · rw [Bool.and_eq_true, decide_eq_true_iff] at h1
    exact Or.inr ⟨_, rfl, Or.inl ⟨h1.2, rfl, rfl⟩⟩
  · rw [Bool.and_eq_true, decide_eq_true_iff] at h2
    rw [Bool.and_eq_true, decide_eq_true_iff] at h1
    push_neg at h1
    exact Or.inr ⟨_, rfl, Or.inr ⟨h1 h2.1, h2.2, rfl, rfl⟩⟩
  · exact Or.inl ⟨_, rfl⟩

/-- Once the buffer bound is reached, the loop finishes within the
remaining goal-radius budget. -/
lemma gt_loop_run_phase2 (W H : ℤ) (plan : GtLoopSt → ℚ × ℚ × Bool) :
    ∀ (k : ℕ) (s : GtLoopSt), 100 ≤ s.buf → 50 ≤ s.goalR + k →
    (gt_loop_run W H plan (k + 1) s).isSome := by
  intro k
  induction k with
  | zero =>
      intro s hb hg
      rcases gt_loop_step_cases W H plan s with ⟨w, hw⟩ | ⟨t, ht, hc⟩
      · simp [gt_loop_run, hw]
      · rcases hc with ⟨hlt, _⟩ | ⟨_, hr, _⟩
        · linarith
        · omega
  | succ k ih =>
      intro s hb hg
      rcases gt_loop_step_cases W H plan s with ⟨w, hw⟩ | ⟨t, ht, hc⟩
      · simp [gt_loop_run, hw]
      · rcases hc with ⟨hlt, _⟩ | ⟨_, _, htb, htr⟩
        · linarith
        · have : (gt_loop_run W H plan (k + 1) t).isSome :=
            ih t (by rw [htb]; exact hb) (by omega)
          simpa [gt_loop_run, ht] using this

/-- Main termination bound: once `2 ^ j` doublings would push the buffer
past 100, the loop finishes within `j + k + 1` iterations, `k` being the
remaining goal-radius budget. -/
lemma gt_loop_run_phase1 (W H : ℤ) (plan : GtLoopSt → ℚ × ℚ × Bool) :
    ∀ (j k : ℕ) (s : GtLoopSt), 0 < s.buf → 100 ≤ 2 ^ j * s.buf →
    50 ≤ s.goalR + k → (gt_loop_run W H plan (j + k + 1) s).isSome := by
  intro j
  induction j with
  | zero =>
      intro k s hpos hb hg
      have hb1 : (100 : ℚ) ≤ s.buf := by
        rw [pow_zero, one_mul] at hb; exact hb
      simpa using gt_loop_run_phase2 W H plan k s hb1 hg
  | succ j ih =>
      intro k s hpos hb hg
      rcases gt_loop_step_cases W H plan s with ⟨w, hw⟩ | ⟨t, ht, hc⟩
      · simp [gt_loop_run, hw]
      · rcases hc with ⟨hlt, htb, htr⟩ | ⟨hge, _, htb, htr⟩
        · have hb2 : (100 : ℚ) ≤ 2 ^ j * t.buf := by
            rw [htb, pow_succ] at *
            calc (100 : ℚ) ≤ 2 ^ j * 2 * s.buf := hb
              _ = 2 ^ j * (2 * s.buf) := by ring
          have : (gt_loop_run W H plan (j + k + 1) t).isSome :=
            ih k t (by rw [htb]; positivity) hb2 (by omega)
          have hfuel : j + 1 + k + 1 = (j + k + 1) + 1 := by omega
          rw [hfuel]
          simpa [gt_loop_run, ht] using this
        · have : (gt_loop_run W H plan ((j + k) + 1) t).isSome :=
            gt_loop_run_phase2 W H plan (j + k) t (by rw [htb]; exact hge)
              (by omega)
          have hfuel : j + 1 + k + 1 = ((j + k) + 1) + 1 := by omega
          rw [hfuel]
          simpa [gt_loop_run, ht] using this

/-- Claim C5: for every obstacle grid, start, goal and planning window
(entering the loop with `buf = max(5, dist) ≥ 5` and `goal_r = 0`, and
whatever the solver answers), the escalation loop exits within the fixed
budget of 56 iterations and produces a waypoint: the buffer doubles only
while it is below 100 and the goal-clearance radius increments only while
it is below 50. -/
theorem gt_escalation_terminates (W H : ℤ) (plan : GtLoopSt → ℚ × ℚ × Bool)
    (s : GtLoopSt) (hbuf : 5 ≤ s.buf) (hg : s.goalR = 0) :
    ∃ w, gt_loop_run W H plan 56 s = some w := by
  have h1 : (0 : ℚ) < s.buf := by linarith
  have h2 : (100 : ℚ) ≤ 2 ^ 5 * s.buf := by nlinarith
  have h3 : 50 ≤ s.goalR + 50 := by omega
  have h4 := gt_loop_run_phase1 W H plan 5 50 s h1 h2 h3
  rwa [Option.isSome_iff_exists] at h4

/-- Witness for Claim C5: a solver that always asks for replanning, on a
480×480 grid, buffer 5, radius 0. -/
theorem gt_escalation_terminates_witness :
    (5 : ℚ) ≤ 5 ∧
    ∃ w, gt_loop_run 480 480 (fun _ => (7, 9, true)) 56
        ⟨5, 0, 10, 20, 10, 20⟩ = some w :=
  ⟨le_refl _,
   gt_escalation_terminates 480 480 (fun _ => (7, 9, true))
     ⟨5, 0, 10, 20, 10, 20⟩ (by norm_num) rfl⟩

/-!
Section: Stuck detection and recovery (source lines 1420-1447)

Per step and agent: if the previous action was move-forward and the agent
grid cell equals the previous one, `stuck_steps` increments.  If
`unstuck_mode` is set or `stuck_steps ≥ stuck_max_steps` (10, line 1229),
the step enters the unstuck branch: it pops the next scripted action, or,
when the queue is exhausted, plays one move-forward, leaves unstuck mode
and refills the queue.  `stuck_steps` is never decremented on steps where
the cell changed; it is only zeroed inside the unstuck branch and at
episode end.
-/

/-- The scripted recovery queue (source lines 1214-1225 and 1437-1447). -/
def unstuck_sequence : List ℕ :=
  [TURN_LEFT, MOVE_FORWARD, TURN_LEFT, TURN_LEFT, MOVE_FORWARD,
   TURN_LEFT, TURN_LEFT, TURN_LEFT, MOVE_FORWARD]

/-- `self.stuck_max_steps = 10` (source line 1229). -/
def stuck_max_steps : ℕ := 10

/-- Per-agent stuck-recovery state: step counter, unstuck flag, pending
scripted actions. -/
structure StuckSt where
  stuckSteps : ℕ
  unstuckMode : Bool
  queue : List ℕ
deriving DecidableEq

/-- Initial stuck state of an agent (source lines 1214-1228). -/
def stuck_init : StuckSt := ⟨0, false, unstuck_sequence⟩

/-- Counter after the line-1421 check; the step input is the pair
(previous action was move-forward, grid cell unchanged). -/
def stuck_next (s : StuckSt) (inp : Bool × Bool) : ℕ :=
  if inp.1 && inp.2 then s.stuckSteps + 1 else s.stuckSteps

/-- One step of the stuck state machine; the emitted `Option` is the
override action (`none` means the planner path chooses the action). -/
def stuck_step (s : StuckSt) (inp : Bool × Bool) : StuckSt × Option ℕ :=
  if s.unstuckMode || decide (stuck_max_steps ≤ stuck_next s inp) then
    match s.queue with
    | a :: rest => (⟨0, true, rest⟩, some a)
    | [] => (⟨0, false, unstuck_sequence⟩, some MOVE_FORWARD)
  else
    (⟨stuck_next s inp, s.unstuckMode, s.queue⟩, none)

/-- Run the machine over a list of step inputs, collecting the emitted
override actions. -/
def stuck_run (s : StuckSt) : List (Bool × Bool) → StuckSt × List (Option ℕ)
  | [] => (s, [])
  | i :: is =>
    ((stuck_run (stuck_step s i).1 is).1,
     (stuck_step s i).2 :: (stuck_run (stuck_step s i).1 is).2)

/-- Number of inputs satisfying the stuck condition (cumulative). -/
def count_stuck (l : List (Bool × Bool)) : ℕ :=
  (l.filter (fun i => i.1 && i.2)).length

/-- Longest consecutive run of inputs satisfying the stuck condition. -/
def max_consec_stuck (l : List (Bool × Bool)) : ℕ :=
  (l.foldl
    (fun p i => if i.1 && i.2 then (p.1 + 1, max p.2 (p.1 + 1)) else (0, p.2))
    (0, 0)).2

/-- Claim C4 counterexample: after nine stuck occurrences, one step on
which the agent's cell changes, and one further stuck occurrence, the
machine is in unstuck mode although the stuck condition never held for
10 consecutive steps (the longest run in the trace is 9): a step on
which the cell changes does not reset the progress. -/
theorem stuck_consecutive_cex :
    (stuck_run stuck_init
      (List.replicate 9 (true, true) ++ [(true, false), (true, true)])).1.unstuckMode
      = true ∧
    max_consec_stuck
      (List.replicate 9 (true, true) ++ [(true, false), (true, true)]) = 9 ∧
    9 < stuck_max_steps := by
  refine ⟨by decide, by decide, by decide⟩

/-- While the cumulative count stays below the threshold, the machine
stays in normal mode, keeps its queue, counts cumulatively and emits no
override. -/
lemma stuck_run_normal (l : List (Bool × Bool)) :
    ∀ c : ℕ, c + count_stuck l < stuck_max_steps →
    stuck_run ⟨c, false, unstuck_sequence⟩ l =
      (⟨c + count_stuck l, false, unstuck_sequence⟩,
       List.replicate l.length none) := by
  induction l with
  | nil => intro c h; simp [stuck_run, count_stuck]
  | cons i is ih =>
      intro c h
      by_cases hi : (i.1 && i.2) = true
      · have hc : count_stuck (i :: is) = count_stuck is + 1 := by
          simp [count_stuck, hi]
        rw [hc] at h
        have hstep : stuck_step ⟨c, false, unstuck_sequence⟩ i =
            (⟨c + 1, false, unstuck_sequence⟩, none) := by
          unfold stuck_step stuck_next
          rw [hi]
          have hn : ¬ (stuck_max_steps ≤ c + 1) := by
            unfold stuck_max_steps; unfold stuck_max_steps at h; omega
          simp [hn]
        have hrec := ih (c + 1) (by omega)
        show stuck_run ⟨c, false, unstuck_sequence⟩ (i :: is) = _
        rw [show stuck_run ⟨c, false, unstuck_sequence⟩ (i :: is) =
              ((stuck_run (stuck_step ⟨c, false, unstuck_sequence⟩ i).1 is).1,
               (stuck_step ⟨c, false, unstuck_sequence⟩ i).2 ::
                 (stuck_run (stuck_step ⟨c, false, unstuck_sequence⟩ i).1 is).2)
            from rfl]
        rw [hstep]
        simp only [hrec]
        have harith : c + 1 + count_stuck is = c + count_stuck (i :: is) := by
          rw [hc]; omega
        rw [harith]
        simp [List.replicate_succ]
      · have hc : count_stuck (i :: is) = count_stuck is := by
          simp [count_stuck, hi]
        rw [hc] at h
        have hstep : stuck_step ⟨c, false, unstuck_sequence⟩ i =
            (⟨c, false, unstuck_sequence⟩, none) := by
          unfold stuck_step stuck_next
          rw [Bool.not_eq_true] at hi
          rw [hi]
          have hn : ¬ (stuck_max_steps ≤ c) := by
            unfold stuck_max_steps; unfold stuck_max_steps at h; omega
          simp [hn]
        have hrec := ih c h
        rw [show stuck_run ⟨c, false, unstuck_sequence⟩ (i :: is) =
              ((stuck_run (stuck_step ⟨c, false, unstuck_sequence⟩ i).1 is).1,
               (stuck_step ⟨c, false, unstuck_sequence⟩ i).2 ::
                 (stuck_run (stuck_step ⟨c, false, unstuck_sequence⟩ i).1 is).2)
            from rfl]
        rw [hstep]
        simp only [hrec]
        rw [show count_stuck (i :: is) = count_stuck is from hc]
        simp [List.replicate_succ]

/-- Claim C4 (amended): the transition to unstuck fires when the
cumulative count of occurrences of (previous action forward ∧ cell
unchanged) since the start (or last recovery) reaches
`stuck_max_steps = 10`; steps on which the cell changes do not reset
the count.  Below the threshold the machine stays normal with the count
as its counter and emits no override.  Ten consecutive stuck steps do
trigger the transition, and the machine then emits the scripted recovery
sequence in order, followed by one extra move-forward with the mode
cleared and the queue refilled. -/
theorem stuck_cumulative_trigger (l : List (Bool × Bool))
    (h : count_stuck l < stuck_max_steps) :
    stuck_run stuck_init l =
      (⟨count_stuck l, false, unstuck_sequence⟩,
       List.replicate l.length none) ∧
    (stuck_run stuck_init
        (List.replicate 10 (true, true) ++ List.replicate 9 (false, false))).2 =
      List.replicate 9 none ++ (unstuck_sequence ++ [MOVE_FORWARD]).map some ∧
    (stuck_run stuck_init
        (List.replicate 10 (true, true) ++ List.replicate 9 (false, false))).1 =
      ⟨0, false, unstuck_sequence⟩ := by
  refine ⟨?_, by decide, by decide⟩
  have := stuck_run_normal l 0 (by omega)
  simpa using this

/-- Witness for Claim C4 (amended) at the one-step trace with a cell
change. -/
theorem stuck_cumulative_trigger_witness :
    count_stuck [(true, false)] < stuck_max_steps ∧
    stuck_run stuck_init [(true, false)] =
      (⟨count_stuck [(true, false)], false, unstuck_sequence⟩,
       List.replicate 1 none) :=
  ⟨by decide, (stuck_cumulative_trigger [(true, false)] (by decide)).1⟩

/-!
Section: Goal selection from matching semantic cells (source lines 1391-1393)

When at least one map cell matches the target class, the code runs
`goal_grid_loc.float().mean(axis=0).type(torch.uint8)`: the
per-coordinate arithmetic mean of the matching cell indices, cast to
`uint8`, i.e. truncated toward zero (and wrapped mod 256); `is_goal` is
set to 1 (line 1392).
-/

/-- Arithmetic mean of a list of cell indices, as a rational. -/
def meanQ (xs : List ℕ) : ℚ := (xs.sum : ℚ) / xs.length

/-- Cast of a nonnegative float to `torch.uint8`: truncation toward zero
then wrap modulo 256. -/
def uint8_trunc (q : ℚ) : ℕ := (⌊q⌋).toNat % 256

/-- Goal produced from a nonempty list of matching cells, with the
`is_goal` flag (source lines 1391-1395). -/
def goal_from_matches (ms : List (ℕ × ℕ)) : (ℕ × ℕ) × Bool :=
  ((uint8_trunc (meanQ (ms.map Prod.fst)),
    uint8_trunc (meanQ (ms.map Prod.snd))), true)

/-- Claim C6 counterexample: for matching cells (0,0), (1,1), (1,1) the
per-coordinate mean is 2/3 and the code truncates it to cell (0,0),
while the claimed rounding to the nearest cell gives (1,1). -/
theorem goal_centroid_cex :
    (goal_from_matches [(0, 0), (1, 1), (1, 1)]).1 = (0, 0) ∧
    rne (meanQ ([(0, 0), (1, 1), (1, 1)].map Prod.fst)) = 1 ∧
    rne (meanQ ([(0, 0), (1, 1), (1, 1)].map Prod.snd)) = 1 := by
  have hfst : ([(0, 0), (1, 1), (1, 1)] : List (ℕ × ℕ)).map Prod.fst
      = [0, 1, 1] := rfl
  have hsnd : ([(0, 0), (1, 1), (1, 1)] : List (ℕ × ℕ)).map Prod.snd
      = [0, 1, 1] := rfl
  have hm : meanQ [0, 1, 1] = 2 / 3 := by
    unfold meanQ
    norm_num
  have hf : ⌊(2 / 3 : ℚ)⌋ = 0 :=
    Int.floor_eq_zero_iff.mpr (by rw [Set.mem_Ico]; norm_num)
  refine ⟨?_, ?_, ?_⟩
  · show (uint8_trunc (meanQ (([(0, 0), (1, 1), (1, 1)] :
        List (ℕ × ℕ)).map Prod.fst)),
      uint8_trunc (meanQ (([(0, 0), (1, 1), (1, 1)] :
        List (ℕ × ℕ)).map Prod.snd))) = (0, 0)
    rw [hfst, hsnd, hm]
    unfold uint8_trunc
    rw [hf]
    rfl
  · rw [hfst, hm]
    unfold rne
    rw [hf]
    norm_num
  · rw [hsnd, hm]
    unfold rne
    rw [hf]
    norm_num

/-- Truncating the mean of a one-element list returns the element. -/
lemma uint8_trunc_meanQ_single (n : ℕ) (hn : n < 256) :
    uint8_trunc (meanQ [n]) = n := by
  have h1 : meanQ [n] = (n : ℚ) := by
    simp [meanQ]
  rw [h1]
  simp [uint8_trunc, Int.floor_natCast, Nat.mod_eq_of_lt hn]

/-- Claim C6 (amended): with at least one matching cell the selected goal
is the per-coordinate mean truncated toward zero (uint8 cast), not
rounded to nearest, and `is_goal` is true; in particular a single
matching cell below 256 is returned unchanged, so the single-match
scenario (55,52) yields goal (55,52) with `is_goal = true`. -/
theorem goal_centroid_truncated (p : ℕ × ℕ) (h1 : p.1 < 256) (h2 : p.2 < 256) :
    goal_from_matches [p] = (p, true) ∧
    goal_from_matches [(55, 52)] = ((55, 52), true) ∧
    (∀ ms : List (ℕ × ℕ), (goal_from_matches ms).2 = true) := by
  refine ⟨?_, ?_, fun ms => rfl⟩
  · show ((uint8_trunc (meanQ [p.1]), uint8_trunc (meanQ [p.2])), true)
      = (p, true)
    rw [uint8_trunc_meanQ_single p.1 h1, uint8_trunc_meanQ_single p.2 h2]
  · show ((uint8_trunc (meanQ [55]), uint8_trunc (meanQ [52])), true)
      = ((55, 52), true)
    rw [uint8_trunc_meanQ_single 55 (by norm_num),
      uint8_trunc_meanQ_single 52 (by norm_num)]

/-- Witness for Claim C6 (amended) at the single matching cell (55,52). -/
theorem goal_centroid_truncated_witness :
    (55 : ℕ) < 256 ∧ (52 : ℕ) < 256 ∧
    (goal_from_matches [(55, 52)] = ((55, 52), true) ∧
     goal_from_matches [(55, 52)] = ((55, 52), true) ∧
     (∀ ms : List (ℕ × ℕ), (goal_from_matches ms).2 = true)) :=
  ⟨by decide, by decide, goal_centroid_truncated (55, 52) (by decide) (by decide)⟩

/-!
Section: Random exploration sampling (source lines 1379-1389)

When no cell matches the target class and the strategy is `random`, the
goal coordinate is drawn per coordinate by
`random.randint(max(0, a - explore_radius), min(W, a + explore_radius))`
where `W` is the corresponding `oracle_map_size` entry, equal to
`map_grid_size` (lines 1232-1234); `random.randint` includes both
endpoints.  `is_goal[i]` is set to 0 (line 1389).
-/

/-- Lower endpoint of the sampling interval for one coordinate. -/
def explore_lo (a : ℤ) (R : ℕ) : ℤ := max 0 (a - R)

/-- Upper endpoint (inclusive) of the sampling interval. -/
def explore_hi (Wm a : ℤ) (R : ℕ) : ℤ := min Wm (a + R)

/-- Value stored into `is_goal[i]` on the exploration path (line 1389). -/
def explore_is_goal : ℕ := 0

/-- Claim C8 counterexample: with map size G = 30, agent coordinate 29
and radius 10, the inclusive upper endpoint is `min(30, 39) = 30`, so
the cell coordinate 30 — outside `[0, G)` — is a possible sample. -/
theorem random_explore_cex :
    ¬ (∀ u : ℤ, explore_lo 29 10 ≤ u ∧ u ≤ explore_hi 30 29 10 → u < 30) := by
  intro h
  have h30 := h 30 (by constructor <;> decide)
  omega

/-- Claim C8 (amended): every possible sample lies within the inclusive
bounds `[0, G]` (upper clamp `min(G, a + R)` with inclusive sampling,
`G = map_grid_size`) and within Chebyshev distance `R` of the agent
coordinate, and `is_goal` is set to 0. -/
theorem random_explore_bounds (Wm a u : ℤ) (R : ℕ) (ha0 : 0 ≤ a)
    (haW : a ≤ Wm) (hlo : explore_lo a R ≤ u) (hhi : u ≤ explore_hi Wm a R) :
    0 ≤ u ∧ u ≤ Wm ∧ |u - a| ≤ (R : ℤ) ∧ explore_is_goal = 0 := by
  rw [explore_lo, max_le_iff] at hlo
  rw [explore_hi, le_min_iff] at hhi
  refine ⟨hlo.1, hhi.1, ?_, rfl⟩
  rw [abs_le]
  omega

/-- Witness for Claim C8 (amended) at G = 30, agent 29, radius 10,
sample 30. -/
theorem random_explore_bounds_witness :
    (0 : ℤ) ≤ 29 ∧ (29 : ℤ) ≤ 30 ∧ explore_lo 29 10 ≤ 30 ∧
    (30 : ℤ) ≤ explore_hi 30 29 10 ∧
    ((0 : ℤ) ≤ 30 ∧ (30 : ℤ) ≤ 30 ∧ |(30 : ℤ) - 29| ≤ ((10 : ℕ) : ℤ) ∧
     explore_is_goal = 0) :=
  ⟨by decide, by decide, by decide, by decide,
   random_explore_bounds 30 29 30 10 (by decide) (by decide) (by decide)
     (by decide)⟩

/-!
Section: Collision write-back (source lines 1671-1679)

On a reported collision, both `collision_map[i]` and the occupancy
channel `object_maps[i,:,:,0]` receive
`[a-1 : a+1, c-1 : c+1] = 1`, a Python slice assignment: a 2×2 block
ending at the agent cell.  Python slice indices are normalized by adding
the dimension size when negative, then clamped — so for `a = 0` the row
slice is `[-1 : 1]`, which normalizes to `[n-1 : 1]`, an empty range, and
nothing is written.
-/

/-- Python slice endpoint normalization for dimension size `n`. -/
def py_slice_idx (n : ℕ) (i : ℤ) : ℤ :=
  if i < 0 then max 0 (i + n) else min i n

/-- Slice assignment `g[a-1 : a+1, c-1 : c+1] = 1` on an `n × n` grid. -/
def collision_block_set (g : ℕ → ℕ → ℕ) (n : ℕ) (a c : ℤ) : ℕ → ℕ → ℕ :=
  fun i j =>
    if py_slice_idx n (a - 1) ≤ (i : ℤ) ∧ (i : ℤ) < py_slice_idx n (a + 1) ∧
       py_slice_idx n (c - 1) ≤ (j : ℤ) ∧ (j : ℤ) < py_slice_idx n (c + 1)
    then 1 else g i j

/-- Claim C10 counterexample: on a 10×10 zero grid with the agent at row
0, column 5, the claimed block spans rows −1..0 and columns 4..5, and
cell (0,4) lies in it and in bounds; but the row slice `[-1 : 1]`
normalizes to the empty range `[9 : 1]`, so the cell stays 0. -/
theorem collision_block_cex :
    collision_block_set (fun _ _ => 0) 10 0 5 0 4 = 0 ∧
    ((0 : ℤ) - 1 ≤ 0 ∧ (0 : ℤ) ≤ 0 ∧ (5 : ℤ) - 1 ≤ 4 ∧ (4 : ℤ) ≤ 5) := by
  refine ⟨by decide, by decide⟩

/-- Claim C10 (amended): when the agent cell has row ≥ 1 and column ≥ 1,
the collision write sets exactly the in-bounds cells of the 2×2 block
spanning rows `a-1..a` and columns `c-1..c` to 1 — in the collision map
and in the occupancy channel alike, which therefore acquires obstacle
cells from collision events — and leaves every other cell unchanged; at
row 0 or column 0 the negative slice start wraps and nothing is written. -/
theorem collision_block_amended (g : ℕ → ℕ → ℕ) (n : ℕ) (a c : ℤ)
    (ha : 1 ≤ a) (hc : 1 ≤ c) (i j : ℕ) :
    collision_block_set g n a c i j =
      if a - 1 ≤ (i : ℤ) ∧ (i : ℤ) ≤ a ∧ (i : ℤ) < n ∧
         c - 1 ≤ (j : ℤ) ∧ (j : ℤ) ≤ c ∧ (j : ℤ) < n
      then 1 else g i j := by
  unfold collision_block_set py_slice_idx
  split_ifs <;> first | rfl | (exfalso; omega)

/-- Witness for Claim C10 (amended) on a 10×10 grid with agent (3,4),
query cell (2,3). -/
theorem collision_block_amended_witness :
    (1 : ℤ) ≤ 3 ∧ (1 : ℤ) ≤ 4 ∧
    collision_block_set (fun _ _ => 7) 10 3 4 2 3 =
      (if (3 : ℤ) - 1 ≤ ((2 : ℕ) : ℤ) ∧ ((2 : ℕ) : ℤ) ≤ 3 ∧
          ((2 : ℕ) : ℤ) < (10 : ℕ) ∧ (4 : ℤ) - 1 ≤ ((3 : ℕ) : ℤ) ∧
          ((3 : ℕ) : ℤ) ≤ 4 ∧ ((3 : ℕ) : ℤ) < (10 : ℕ)
       then 1 else (fun _ _ => 7) 2 3) :=
  ⟨by decide, by decide,
   collision_block_amended (fun _ _ => 7) 10 3 4 (by decide) (by decide) 2 3⟩

/-!
Section: Per-agent state, episode reset (source lines 1570-1634) and
environment pausing (source lines 901-968)

At episode end the loop overwrites, for the finished agent's slot `i`:
`global_object_map[i]`, `object_maps[i]`, `stubborn_goal_queues[i]`,
`goal_world_coordinates[i]`, `goal_observations[i]`, `goal_grid[i]`,
`is_goal[i]`, `collision_threshold_steps[i]`, `grid_map[i]`,
`visited[i]`, `num_goals_completed[i]`, `collision_map[i]`,
`relative_angles[i]`, `stg[i]`, `prev_locs[i]`, `unstuck_mode[i]`,
`stuck_steps[i]` — but not `unstuck_actions[i]` (the pending recovery
queue), not `steps_towards_short_term_goal[i]`, not `prev_actions[i]`
and not `acts[i]`.  `_pause_envs` re-indexes only the structures passed
to it (hidden states, masks, rewards, previous actions, goal
observations, global map, `is_goal`, `grid_map`, `object_maps`, the
observation batch and video frames); `visited`, `collision_map`,
`goal_grid`, the stuck state and the step counters are left at their old
slot positions.
-/

/-- Per-agent mutable state of the evaluation loop (one slot).  Grid
channels are cell-indexed functions; queue contents as in the source. -/
structure AgentState where
  globalObjectMap : ℕ → ℕ → ℕ → ℚ
  objectMaps : ℕ → ℕ → ℕ → ℚ
  stubbornQueue : List ℕ
  goalWorld : ℚ × ℚ × ℚ
  goalObs : ℚ × ℚ
  goalGrid : ℚ × ℚ
  isGoal : ℕ
  collisionThresholdSteps : ℕ
  gridMap : ℕ → ℕ → ℕ × ℕ
  visited : ℕ → ℕ → ℕ
  numGoalsCompleted : ℕ
  collisionMap : ℕ → ℕ → ℚ
  relativeAngles : ℚ
  stg : ℚ × ℚ
  prevLocs : ℤ × ℤ
  unstuckMode : Bool
  stuckSteps : ℕ
  unstuckActions : List ℕ
  stepsTowardsGoal : ℕ
  prevAction : ℕ
  acts : List ℕ

/-- The initial per-agent state built before the evaluation loop
(source lines 1057-1228): everything zeroed except the full recovery
queue. -/
def init_agent_state : AgentState :=
  { globalObjectMap := fun _ _ _ => 0
    objectMaps := fun _ _ _ => 0
    stubbornQueue := []
    goalWorld := (0, 0, 0)
    goalObs := (0, 0)
    goalGrid := (0, 0)
    isGoal := 0
    collisionThresholdSteps := 0
    gridMap := fun _ _ => (0, 0)
    visited := fun _ _ => 0
    numGoalsCompleted := 0
    collisionMap := fun _ _ => 0
    relativeAngles := 0
    stg := (0, 0)
    prevLocs := (0, 0)
    unstuckMode := false
    stuckSteps := 0
    unstuckActions := unstuck_sequence
    stepsTowardsGoal := 0
    prevAction := 0
    acts := [] }

/-- The episode-end overwrite of one agent's slot (source lines
1570-1634): exactly the assignments performed there; the remaining
fields keep their pre-reset contents. -/
def episode_reset (s : AgentState) : AgentState :=
  { globalObjectMap := fun _ _ _ => 0
    objectMaps := fun _ _ _ => 0
    stubbornQueue := []
    goalWorld := (0, 0, 0)
    goalObs := (0, 0)
    goalGrid := (0, 0)
    isGoal := 0
    collisionThresholdSteps := 0
    gridMap := fun _ _ => (0, 0)
    visited := fun _ _ => 0
    numGoalsCompleted := 0
    collisionMap := fun _ _ => 0
    relativeAngles := 0
    stg := (0, 0)
    prevLocs := (0, 0)
    unstuckMode := false
    stuckSteps := 0
    unstuckActions := s.unstuckActions
    stepsTowardsGoal := s.stepsTowardsGoal
    prevAction := s.prevAction
    acts := s.acts }

/-- Claim C9 counterexample: an agent whose episode ends mid-recovery
(one pending scripted action left) is not reset to the initial state —
the pending recovery-action queue survives the episode-end overwrite. -/
theorem episode_reset_cex :
    episode_reset { init_agent_state with unstuckActions := [MOVE_FORWARD] }
      ≠ init_agent_state := by
  intro h
  have h2 := congrArg AgentState.unstuckActions h
  simp [episode_reset, init_agent_state, unstuck_sequence] at h2

/-- Batch-indexed per-agent structures around the `_pause_envs` call
(source lines 1707-1735); the list index is the environment slot and the
payload an abstract label of the owning agent's data. -/
structure BatchState where
  hiddenStates : List ℕ
  notDoneMasks : List ℕ
  episodeRewards : List ℕ
  prevActions : List ℕ
  goalObservations : List ℕ
  globalObjectMaps : List ℕ
  isGoals : List ℕ
  gridMaps : List ℕ
  objectMaps : List ℕ
  visited : List ℕ
  collisionMaps : List ℕ
  goalGrids : List ℕ
  stuckStates : List ℕ
  stepsTowardsGoals : List ℕ

/-- Tensor indexing by the surviving-slot list (`tensor[state_index]`). -/
def reindex (idx : List ℕ) (xs : List α) : List α :=
  idx.filterMap xs.get?

/-- `_pause_envs` (source lines 901-968) re-indexes exactly the
structures passed to it and leaves every other per-agent structure
untouched. -/
def pause_envs (idx : List ℕ) (b : BatchState) : BatchState :=
  { hiddenStates := reindex idx b.hiddenStates
    notDoneMasks := reindex idx b.notDoneMasks
    episodeRewards := reindex idx b.episodeRewards
    prevActions := reindex idx b.prevActions
    goalObservations := reindex idx b.goalObservations
    globalObjectMaps := reindex idx b.globalObjectMaps
    isGoals := reindex idx b.isGoals
    gridMaps := reindex idx b.gridMaps
    objectMaps := reindex idx b.objectMaps
    visited := b.visited
    collisionMaps := b.collisionMaps
    goalGrids := b.goalGrids
    stuckStates := b.stuckStates
    stepsTowardsGoals := b.stepsTowardsGoals }

/-- A two-agent batch in which slot `k` of every structure holds agent
`k`'s data. -/
def two_agent_batch : BatchState :=
  { hiddenStates := [0, 1]
    notDoneMasks := [0, 1]
    episodeRewards := [0, 1]
    prevActions := [0, 1]
    goalObservations := [0, 1]
    globalObjectMaps := [0, 1]
    isGoals := [0, 1]
    gridMaps := [0, 1]
    objectMaps := [0, 1]
    visited := [0, 1]
    collisionMaps := [0, 1]
    goalGrids := [0, 1]
    stuckStates := [0, 1]
    stepsTowardsGoals := [0, 1] }

/-- Claim C9 (amended): the episode-end overwrite resets every per-agent
field to its initial value except the pending recovery-action queue, the
exploration-step counter, the previous-action latch and the action
history, which keep their pre-reset contents; and `_pause_envs`
re-indexes only the structures passed to it (object maps etc.) while
`visited`, collision map, goal grid, stuck state and step counters keep
their old slots — so after pausing agent 0 of two agents, slot 0 of the
object maps holds agent 1's data while slot 0 of the visited map still
holds agent 0's. -/
theorem per_agent_reset_and_pause :
    (∀ s : AgentState, episode_reset s =
      { init_agent_state with
          unstuckActions := s.unstuckActions
          stepsTowardsGoal := s.stepsTowardsGoal
          prevAction := s.prevAction
          acts := s.acts }) ∧
    (∀ (idx : List ℕ) (b : BatchState),
      (pause_envs idx b).objectMaps = reindex idx b.objectMaps ∧
      (pause_envs idx b).visited = b.visited) ∧
    (pause_envs [1] two_agent_batch).objectMaps.get? 0 = some 1 ∧
    (pause_envs [1] two_agent_batch).visited.get? 0 = some 0 :=
  ⟨fun s => rfl, fun idx b => ⟨rfl, rfl⟩, by decide, by decide⟩

end MopaObjnav
